import Mathlib

/-!
Shallow embedding of `src/src/main.py` of the scryptedapp/smtp-notifier
plugin: the `SMTPNotifier` device (settings storage, SMTP session state,
`initialize`, `putSetting`, `sendNotification`) and the
`SMTPNotifierProvider` factory (`getDevice`, `createDevice`).

External collaborators (the SMTP transport, the host media services, the
host device registry, `uuid.uuid4`) are modelled as an explicit
environment whose outcomes parameterize the operations; observable calls
to them are recorded as an effect trace.
-/

namespace SMTPN

/-- A Python runtime value as it can live in the host settings store or be
passed to `putSetting`: a string, an integer, or a boolean.  Python `None`
is modelled by `Option` at use sites. -/
inductive Value where
  | vStr (s : String)
  | vInt (n : Int)
  | vBool (b : Bool)
deriving DecidableEq

/-- Python truthiness of a value (`bool(v)` / `not v`): empty string and
zero are falsy. -/
def Value.truthy : Value → Bool
  | .vStr s => !s.isEmpty
  | .vInt n => n != 0
  | .vBool b => b

/-- Python truthiness of an optional value; `None` is falsy. -/
def truthyOpt : Option Value → Bool
  | none => false
  | some v => v.truthy

/-- Decimal value of a list of characters, `none` unless it is one or more
digits. -/
def digitsVal : List Char → Option Nat
  | [] => none
  | cs =>
    if cs.all Char.isDigit then
      some (cs.foldl (fun a c => a * 10 + (c.toNat - 48)) 0)
    else none

/-- ASCII whitespace, as stripped by Python `int` before parsing. -/
def isSpaceChar (c : Char) : Bool :=
  c = ' ' || c = '\t' || c = '\n' || c = '\r' || c = '\x0b' || c = '\x0c'

/-- Strip leading and trailing whitespace from a character list. -/
def trimChars (cs : List Char) : List Char :=
  ((cs.dropWhile isSpaceChar).reverse.dropWhile isSpaceChar).reverse

/-- Python `int(s)` on a string: surrounding whitespace stripped, an
optional sign, then decimal digits; `none` models `int` raising
`ValueError`.  (the Python underscore digit grouping is not modelled.) -/
def pyStrToInt (s : String) : Option Int :=
  match trimChars s.toList with
  | '+' :: rest => (digitsVal rest).map Int.ofNat
  | '-' :: rest => (digitsVal rest).map fun n => -(Int.ofNat n)
  | cs => (digitsVal cs).map Int.ofNat

/-- Python `int(v)`: identity on ints, `True`/`False` convert to `1`/`0`
(bool is an int subtype), strings parse as decimal integers; `none` models
the conversion raising. -/
def pyToInt : Value → Option Int
  | .vStr s => pyStrToInt s
  | .vInt n => some n
  | .vBool b => some (if b then 1 else 0)

/-- Python `v == "true"`. -/
def eqStrTrue : Value → Bool
  | .vStr s => s == "true"
  | _ => false

/-- Python `v == True`.  Because `bool` is a subtype of `int` in Python,
the integer `1` also compares equal to `True`. -/
def eqPyTrue : Value → Bool
  | .vBool b => b
  | .vInt n => n == 1
  | .vStr _ => false

/-- The per-device settings store of the host: `storage.getItem` returns the
stored value or `None`. -/
def Storage := String → Option Value

/-- `storage.setItem key v`. -/
def Storage.set (st : Storage) (key : String) (v : Value) : Storage :=
  fun k => if k = key then some v else st k

/-- State of one `SMTPNotifier` instance: its settings storage and the
`client` field (`none` is Disconnected, `some h` is Connected with
transport handle `h`). -/
structure NotifierState where
  storage : Storage
  client : Option Nat

/-- The `server` property: the stored value under the server key. -/
def NotifierState.server (st : NotifierState) : Option Value :=
  st.storage "server"

/-- The `port` property: default `465` when unset, otherwise `int(stored)`;
`none` models the `int` conversion raising. -/
def NotifierState.port (st : NotifierState) : Option Int :=
  match st.storage "port" with
  | none => some 465
  | some v => pyToInt v

/-- The `ssl_enabled` property: default `true` when unset, otherwise
`bool(stored)`. -/
def NotifierState.ssl_enabled (st : NotifierState) : Bool :=
  match st.storage "ssl_enabled" with
  | none => true
  | some v => v.truthy

/-- The `username` property. -/
def NotifierState.username (st : NotifierState) : Option Value :=
  st.storage "username"

/-- The `password` property. -/
def NotifierState.password (st : NotifierState) : Option Value :=
  st.storage "password"

/-- The `from_email` property. -/
def NotifierState.from_email (st : NotifierState) : Option Value :=
  st.storage "from_email"

/-- The `to_email` property. -/
def NotifierState.to_email (st : NotifierState) : Option Value :=
  st.storage "to_email"

/-- An email attachment part (`MIMEImage` with an added header). -/
structure Attachment where
  mime : String
  disposition : String
  data : List Nat
deriving DecidableEq

/-- The multi-part message built by `sendNotification`: From/To/Subject
headers, one text/plain part, and an optional image attachment part. -/
structure EmailMessage where
  fromAddr : Option Value
  toAddr : Option Value
  subject : String
  textBody : String
  attachment : Option Attachment
deriving DecidableEq

/-- An observable external call made by the plugin. -/
inductive Effect where
  | log (s : String)
  | connectAttempt (server : Option Value) (port : Int) (ssl : Bool)
  | settingsChanged
  | transmit (m : EmailMessage)
  | deviceDiscovered (nativeId : String) (name : String)
      (interfaces : List String) (ty : String)
  | scheduleInit (nativeId : String)
deriving DecidableEq

/-- A raised Python exception, identified by its message. -/
structure PyError where
  msg : String
deriving DecidableEq

instance : DecidableEq (Except PyError Unit) := fun a b =>
  match a, b with
  | .ok (), .ok () => isTrue rfl
  | .error e1, .error e2 =>
    if h : e1 = e2 then isTrue (h ▸ rfl)
    else isFalse fun he => h (Except.error.inj he)
  | .ok (), .error _ => isFalse nofun
  | .error _, .ok () => isFalse nofun

/-- Result of running one plugin entry point: the final instance state,
the trace of external calls, and either a normal return or a raised
exception.  (Python exceptions do not roll back state, so the state and
trace are kept even on error.) -/
structure Res (α : Type) where
  state : NotifierState
  effects : List Effect
  result : Except PyError α

/-- Outcome the environment assigns to one SMTP connect-and-login attempt
(`SMTP_SSL`/`SMTP` construction, the tolerated STARTTLS upgrade, and
`login`, collapsed to their end result as in the try block of the source). -/
inductive ConnectOutcome where
  | success (handle : Nat)
  | failure (err : String)
deriving DecidableEq

/-- Outcome the environment assigns to `client.send_message`: normal
return, an `SMTPException`, or any other exception. -/
inductive SendOutcome where
  | ok
  | smtpError (err : String)
  | otherError (e : PyError)
deriving DecidableEq

/-- The external world as seen by one notifier instance: the connect
outcome, the host media services (`createMediaObjectFromUrl` returning a
handle, `convertMediaObjectToBuffer` at mime type image/png returning
bytes), and the send outcome. -/
structure Env where
  connect : ConnectOutcome
  resolveUrl : String → Nat
  convertToBuffer : Nat → List Nat
  send : SendOutcome

/-- The list the source passes to `any(...)`: some required field among
server, port, username, password, from_email, to_email is falsy (`p` is
the already-converted port value). -/
def missingRequired (st : NotifierState) (p : Int) : Bool :=
  !truthyOpt st.server || p == 0 || !truthyOpt st.username ||
  !truthyOpt st.password || !truthyOpt st.from_email || !truthyOpt st.to_email

/-- Embedding of the source method `SMTPNotifier.initialize`.  The `port`
property is evaluated while the guard list is built, so a stored port
that `int` cannot convert raises even when another field is empty.  When
a required field is missing the method returns with the state untouched;
otherwise the connect-and-login attempt runs and `client` becomes the new
handle on success and `None` on failure.  No exception escapes the
attempt itself. -/
def initClient (env : Env) (st : NotifierState) : Res Unit :=
  match st.port with
  | none =>
    ⟨st, [], .error ⟨"ValueError: invalid literal for int() with base 10"⟩⟩
  | some p =>
    if missingRequired st p then ⟨st, [], .ok ()⟩
    else
      match env.connect with
      | .success h =>
        ⟨⟨st.storage, some h⟩,
         [.connectAttempt st.server p st.ssl_enabled,
          .log "SMTP client initialized."], .ok ()⟩
      | .failure e =>
        ⟨⟨st.storage, none⟩,
         [.connectAttempt st.server p st.ssl_enabled,
          .log ("Error connecting to SMTP server: " ++ e)], .ok ()⟩

/-- The tail of `putSetting` after validation: persist the field, emit the
settings-changed device event, then re-run the initialization. -/
def storeAndInit (env : Env) (st : NotifierState) (key : String)
    (v : Value) : Res Unit :=
  ⟨(initClient env ⟨st.storage.set key v, st.client⟩).state,
   .settingsChanged :: (initClient env ⟨st.storage.set key v, st.client⟩).effects,
   (initClient env ⟨st.storage.set key v, st.client⟩).result⟩

/-- Embedding of `SMTPNotifier.putSetting`: the port key is validated
(`int(value)` must succeed and land in `[0, 65535]`, otherwise an
exception is raised before anything is persisted), the `ssl_enabled` key
is normalized through `value == "true" or value == True`, and any other
key is persisted as-is. -/
def putSetting (env : Env) (st : NotifierState) (key : String)
    (value : Value) : Res Unit :=
  if key = "port" then
    match pyToInt value with
    | none =>
      ⟨st, [.log "Port must be a number."], .error ⟨"Port must be a number."⟩⟩
    | some n =>
      if n < 0 || 65535 < n then
        ⟨st, [.log "Port must be between 0 and 65535."],
         .error ⟨"Port must be between 0 and 65535."⟩⟩
      else storeAndInit env st key (.vInt n)
  else if key = "ssl_enabled" then
    storeAndInit env st key (.vBool (eqStrTrue value || eqPyTrue value))
  else storeAndInit env st key value

/-- The `options` argument of `sendNotification`: a dictionary with an
optional `body` entry. -/
structure NotifierOptions where
  body : Option String
deriving DecidableEq

/-- The `media` argument: either a URL string or an already-resolved media
object, identified by a handle. -/
inductive MediaInput where
  | url (s : String)
  | obj (handle : Nat)
deriving DecidableEq

/-- Python truthiness of the `media` argument (`if media:`): `None` and
the empty string are falsy, any media object is truthy. -/
def mediaTruthy : Option MediaInput → Bool
  | none => false
  | some (.url s) => !s.isEmpty
  | some (.obj _) => true

/-- The plain-text body: the body entry of options when present, the empty
string when the entry or the whole options dict is absent. -/
def bodyOf : Option NotifierOptions → String
  | none => ""
  | some o => o.body.getD ""

/-- The optional attachment: when the media argument is truthy, a URL is
first resolved to a media object, the object is converted to a PNG byte
buffer, and the result is attached as an image part with the header
`Content-Disposition: attachment; filename=image.png`. -/
def attachmentOf (env : Env) (media : Option MediaInput) : Option Attachment :=
  if mediaTruthy media then
    let h := match media with
      | some (.url s) => env.resolveUrl s
      | some (.obj k) => k
      | none => 0
    some ⟨"image/png", "attachment; filename=image.png", env.convertToBuffer h⟩
  else none

/-- The part of `sendNotification` that follows the initial call to the
initialization method, taking the result `r` of that call: raise the fixed
not-initialized error when no client exists, otherwise build the message
and transmit it, swallowing an `SMTPException` from the send but
propagating any other exception. -/
def sendWithInit (env : Env) (r : Res Unit) (title : String)
    (options : Option NotifierOptions) (media : Option MediaInput) : Res Unit :=
  match r.result with
  | .error e => ⟨r.state, r.effects, .error e⟩
  | .ok _ =>
    match r.state.client with
    | none =>
      ⟨r.state, r.effects ++ [.log "SMTP client not initialized."],
       .error ⟨"SMTP client not initialized."⟩⟩
    | some _ =>
      let m : EmailMessage :=
        ⟨r.state.from_email, r.state.to_email, title, bodyOf options,
         attachmentOf env media⟩
      match env.send with
      | .ok =>
        ⟨r.state,
         r.effects ++ [.log "Sending email...", .transmit m,
           .log "Email sent successfully."], .ok ()⟩
      | .smtpError e =>
        ⟨r.state,
         r.effects ++ [.log "Sending email...", .transmit m,
           .log ("Error sending email: " ++ e)], .ok ()⟩
      | .otherError e =>
        ⟨r.state, r.effects ++ [.log "Sending email...", .transmit m],
         .error e⟩

/-- Embedding of `SMTPNotifier.sendNotification`: re-run initialization,
then continue with `sendWithInit`.  The `icon` argument is accepted and
unused, as in the source. -/
def sendNotification (env : Env) (st : NotifierState) (title : String)
    (options : Option NotifierOptions) (media : Option MediaInput)
    (_icon : Option MediaInput) : Res Unit :=
  sendWithInit env (initClient env st) title options media

/-- The transmit payloads of an effect trace: the messages that reached
`client.send_message`. -/
def transmits (effs : List Effect) : List EmailMessage :=
  effs.filterMap fun e =>
    match e with
    | .transmit m => some m
    | _ => none

/-- State of the `SMTPNotifierProvider`: its `notifiers` registry mapping
native ids to instances. -/
structure ProviderState where
  reg : String → Option NotifierState

/-- The provider environment: the next value drawn by `uuid.uuid4` and the
per-device settings store of the host, used when an instance is
constructed. -/
structure ProviderEnv where
  freshId : String
  hostStorage : String → Storage

/-- Embedding of `SMTPNotifierProvider.getDevice`: return the registered
instance, or construct and register a new one (its constructor sets
`client = None` and schedules the initialization on the event loop). -/
def getDevice (penv : ProviderEnv) (ps : ProviderState) (nativeId : String) :
    NotifierState × ProviderState × List Effect :=
  match ps.reg nativeId with
  | some inst => (inst, ps, [])
  | none =>
    let inst : NotifierState := ⟨penv.hostStorage nativeId, none⟩
    (inst, ⟨fun k => if k = nativeId then some inst else ps.reg k⟩,
     [.scheduleInit nativeId])

/-- The creation settings passed to `createDevice`: a dictionary with an
optional `name` entry. -/
structure CreateSettings where
  name : Option String
deriving DecidableEq

/-- Embedding of `SMTPNotifierProvider.createDevice`: draw a fresh id,
take the name from the settings (default "New SMTP Notifier"), announce
the device to the host discovery mechanism with interfaces Notifier and
Settings, materialize the instance via `getDevice`, and return the id. -/
def createDevice (penv : ProviderEnv) (ps : ProviderState)
    (settings : CreateSettings) : String × ProviderState × List Effect :=
  let nativeId := penv.freshId
  let name := settings.name.getD "New SMTP Notifier"
  let disc : Effect :=
    .deviceDiscovered nativeId name ["Notifier", "Settings"] "Notifier"
  let r := getDevice penv ps nativeId
  (nativeId, r.2.1, disc :: r.2.2)

/-- A full valid configuration, as in the scenario of the spec. -/
def fullStorage : Storage := fun k =>
  if k = "server" then some (.vStr "smtp.example.com")
  else if k = "port" then some (.vInt 465)
  else if k = "username" then some (.vStr "u")
  else if k = "password" then some (.vStr "p")
  else if k = "from_email" then some (.vStr "a@x.com")
  else if k = "to_email" then some (.vStr "b@x.com")
  else none

/-- A fully configured instance holding a Connected session with handle 5. -/
def stFull5 : NotifierState := ⟨fullStorage, some 5⟩

/-- A fully configured instance with no session. -/
def stFullNone : NotifierState := ⟨fullStorage, none⟩

/-- The empty settings store. -/
def emptyStorage : Storage := fun _ => none

/-- A freshly constructed, unconfigured instance. -/
def stEmpty : NotifierState := ⟨emptyStorage, none⟩

/-- A connected instance (handle 7) whose server field was blanked out. -/
def stEmptyServer : NotifierState :=
  ⟨fullStorage.set "server" (.vStr ""), some 7⟩

/-- A fully configured but disconnected instance whose stored port is 0. -/
def stPort0 : NotifierState := ⟨fullStorage.set "port" (.vInt 0), none⟩

/-- An environment whose connect attempt succeeds with handle 9 and whose
send succeeds. -/
def exEnv : Env := ⟨.success 9, fun _ => 11, fun _ => [1, 2, 3], .ok⟩

/-- An environment whose send raises an SMTPException. -/
def exEnvSmtpFail : Env :=
  ⟨.success 9, fun _ => 11, fun _ => [1, 2, 3], .smtpError "boom"⟩

/-- An environment whose send raises a non-SMTP exception. -/
def exEnvOtherFail : Env :=
  ⟨.success 9, fun _ => 11, fun _ => [1, 2, 3],
   .otherError ⟨"ConnectionResetError"⟩⟩

example : (initClient exEnv stEmpty).state.client = none := by decide

example : (initClient exEnv stFullNone).state.client = some 9 := by decide

example : (initClient exEnv stEmptyServer).state.client = some 7 := by decide

example : (putSetting exEnv stFull5 "port" (.vStr "abc")).result =
    .error ⟨"Port must be a number."⟩ := by decide

example :
    (sendNotification exEnv stEmpty "Alert" none none none).result =
      .error ⟨"SMTP client not initialized."⟩ := by decide

example :
    transmits (sendNotification exEnv stFullNone "Alert"
      (some ⟨some "motion detected"⟩) none none).effects =
    [⟨some (.vStr "a@x.com"), some (.vStr "b@x.com"), "Alert",
      "motion detected", none⟩] := by decide

example :
    transmits (sendNotification exEnv stFullNone "Alert" none
      (some (.url "http://x/i.png")) none).effects =
    [⟨some (.vStr "a@x.com"), some (.vStr "b@x.com"), "Alert", "",
      some ⟨"image/png", "attachment; filename=image.png", [1, 2, 3]⟩⟩] := by
  decide

example :
    (sendNotification exEnvSmtpFail stFullNone "Alert" none none none).result =
      .ok () := by decide

example :
    (sendNotification exEnvOtherFail stFullNone "Alert" none none none).result =
      .error ⟨"ConnectionResetError"⟩ := by decide

example :
    (putSetting exEnv stFull5 "ssl_enabled" (.vInt 1)).state.storage
      "ssl_enabled" = some (.vBool true) := by decide

example :
    (putSetting exEnv stFull5 "server" (.vStr "")).state.client = some 5 := by
  decide

/-- The `client` value a completed connect-and-login attempt leaves
behind: the new handle on success, `None` on failure. -/
def outcomeClient : ConnectOutcome → Option Nat
  | .success h => some h
  | .failure _ => none

theorem transmits_append (a b : List Effect) :
    transmits (a ++ b) = transmits a ++ transmits b := by
  unfold transmits
  exact List.filterMap_append a b _

theorem initClient_storage (env : Env) (st : NotifierState) :
    (initClient env st).state.storage = st.storage := by
  unfold initClient
  split
  · rfl
  · split
    · rfl
    · split <;> rfl

theorem initClient_transmits (env : Env) (st : NotifierState) :
    transmits (initClient env st).effects = [] := by
  unfold initClient
  split
  · rfl
  · split
    · rfl
    · split <;> rfl

theorem initClient_client (env : Env) (st : NotifierState) :
    (initClient env st).state.client = st.client ∨
    (initClient env st).state.client = outcomeClient env.connect := by
  unfold initClient
  split
  · exact Or.inl rfl
  · split
    · exact Or.inl rfl
    · right
      split <;> rename_i heq <;> rw [heq] <;> rfl

theorem initClient_missing (env : Env) (st : NotifierState) (p : Int)
    (hp : st.port = some p) (hm : missingRequired st p = true) :
    initClient env st = ⟨st, [], .ok ()⟩ := by
  unfold initClient
  rw [hp]
  simp [hm]

/-- Claim C1: when the internal initialization call inside
`sendNotification` returns normally but leaves no Connected session, the
call raises the fixed error "SMTP client not initialized." and no message
reaches the transport. -/
theorem sendNotification_not_ready (env : Env) (st : NotifierState)
    (title : String) (options : Option NotifierOptions)
    (media : Option MediaInput) (icon : Option MediaInput)
    (hok : (initClient env st).result = .ok ())
    (hnone : (initClient env st).state.client = none) :
    (sendNotification env st title options media icon).result =
      .error ⟨"SMTP client not initialized."⟩ ∧
    transmits (sendNotification env st title options media icon).effects =
      [] := by
  have ht := initClient_transmits env st
  constructor
  · simp only [sendNotification, sendWithInit, hok, hnone]
  · simp only [sendNotification, sendWithInit, hok, hnone, transmits_append,
      ht, List.nil_append]
    rfl

/-- Claim C1 witness: an unconfigured instance. -/
theorem sendNotification_not_ready_witness :
    (sendNotification exEnv stEmpty "Alert" none none none).result =
      .error ⟨"SMTP client not initialized."⟩ ∧
    transmits (sendNotification exEnv stEmpty "Alert" none none none).effects =
      [] :=
  sendNotification_not_ready exEnv stEmpty "Alert" none none none
    (by decide) (by decide)

/-- Claim C2 counterexample: an instance that is Connected (handle 7) and
whose server field is the empty string.  The initialization method returns
normally but the session state is still Connected afterwards, not
Disconnected. -/
theorem initClient_incomplete_cex :
    truthyOpt (NotifierState.server stEmptyServer) = false ∧
    (initClient exEnv stEmptyServer).result = .ok () ∧
    (initClient exEnv stEmptyServer).state.client = some 7 := by
  decide

/-- Claim C2 (amended): for every configuration whose stored port is
absent or convertible by `int` and in which at least one required field is
empty, the initialization method returns without raising and leaves the
whole state unchanged — in particular no session is created, but a
previously Connected session is also not torn down. -/
theorem initClient_incomplete_keeps_state (env : Env) (st : NotifierState)
    (p : Int) (hp : st.port = some p)
    (hmiss : truthyOpt st.server = false ∨ p = 0 ∨
      truthyOpt st.username = false ∨ truthyOpt st.password = false ∨
      truthyOpt st.from_email = false ∨ truthyOpt st.to_email = false) :
    initClient env st = ⟨st, [], .ok ()⟩ := by
  refine initClient_missing env st p hp ?_
  unfold missingRequired
  rcases hmiss with h | h | h | h | h | h <;> simp [h]

/-- Claim C2 witness: the Connected instance with a blanked server field
keeps its entire state. -/
theorem initClient_incomplete_keeps_state_witness :
    initClient exEnv stEmptyServer = ⟨stEmptyServer, [], .ok ()⟩ :=
  initClient_incomplete_keeps_state exEnv stEmptyServer 465 (by decide)
    (Or.inl (by decide))

theorem storeAndInit_storage (env : Env) (st : NotifierState) (key : String)
    (v : Value) :
    (storeAndInit env st key v).state.storage = st.storage.set key v :=
  initClient_storage env ⟨st.storage.set key v, st.client⟩

theorem storeAndInit_client (env : Env) (st : NotifierState) (key : String)
    (v : Value) :
    (storeAndInit env st key v).state.client = st.client ∨
    (storeAndInit env st key v).state.client = outcomeClient env.connect :=
  initClient_client env ⟨st.storage.set key v, st.client⟩

theorem missingRequired_congr (a b : NotifierState) (p : Int)
    (h : a.storage = b.storage) :
    missingRequired a p = missingRequired b p := by
  simp [missingRequired, truthyOpt, NotifierState.server,
    NotifierState.username, NotifierState.password, NotifierState.from_email,
    NotifierState.to_email, h]

theorem port_congr (a b : NotifierState) (h : a.storage = b.storage) :
    a.port = b.port := by
  simp [NotifierState.port, h]

theorem storeAndInit_client_missing (env : Env) (st : NotifierState)
    (key : String) (v : Value) (p : Int)
    (hp : (storeAndInit env st key v).state.port = some p)
    (hm : missingRequired (storeAndInit env st key v).state p = true) :
    (storeAndInit env st key v).state.client = st.client := by
  have hs := storeAndInit_storage env st key v
  have hp2 : (⟨st.storage.set key v, st.client⟩ : NotifierState).port = some p := by
    rw [← port_congr _ _ hs]
    exact hp
  have hm2 : missingRequired (⟨st.storage.set key v, st.client⟩ : NotifierState) p = true := by
    rw [← missingRequired_congr _ _ p hs]
    exact hm
  have := initClient_missing env ⟨st.storage.set key v, st.client⟩ p hp2 hm2
  show (initClient env ⟨st.storage.set key v, st.client⟩).state.client = st.client
  rw [this]

/-- Claim C3 counterexample: on a Connected instance (handle 5), blanking
the server field via `putSetting` returns normally and leaves the
previous Connected transport handle as the session state — it was never
reset to Disconnected. -/
theorem putSetting_keeps_handle_cex :
    (putSetting exEnv stFull5 "server" (.vStr "")).result = .ok () ∧
    (putSetting exEnv stFull5 "server" (.vStr "")).state.client = some 5 := by
  decide

/-- Claim C3 (amended): `putSetting` persists the field, emits the event
and re-runs the initialization, but never resets the session state to
Disconnected first: after the call the session state is either still the
previous client, or the outcome of a completed connection attempt; and
whenever the resulting configuration is incomplete (some required field
falsy), the previous client — including a Connected handle — remains the
session state. -/
theorem putSetting_no_session_reset (env : Env) (st : NotifierState)
    (key : String) (v : Value) :
    (∀ p : Int, (putSetting env st key v).state.port = some p →
      missingRequired (putSetting env st key v).state p = true →
      (putSetting env st key v).state.client = st.client) ∧
    ((putSetting env st key v).state.client = st.client ∨
     (putSetting env st key v).state.client = outcomeClient env.connect) := by
  unfold putSetting
  by_cases hk : key = "port"
  · simp only [hk, if_pos rfl]
    rcases hpi : pyToInt v with _ | n
    · exact ⟨fun p _ _ => rfl, Or.inl rfl⟩
    · by_cases hr : (n < 0 || 65535 < n) = true
      · simp only [hr, if_pos rfl]
        exact ⟨fun p _ _ => rfl, Or.inl rfl⟩
      · simp only [Bool.not_eq_true] at hr
        simp only [hr, Bool.false_eq_true, if_false]
        exact ⟨fun p hp hm => storeAndInit_client_missing env st _ _ p hp hm,
          storeAndInit_client env st _ _⟩
  · by_cases hk2 : key = "ssl_enabled"
    · simp only [hk, hk2, if_false, if_pos rfl]
      exact ⟨fun p hp hm => storeAndInit_client_missing env st _ _ p hp hm,
        storeAndInit_client env st _ _⟩
    · simp only [hk, hk2, if_false]
      exact ⟨fun p hp hm => storeAndInit_client_missing env st _ _ p hp hm,
        storeAndInit_client env st _ _⟩

/-- Claim C3 witness: the incomplete-configuration case of the amended
claim at a concrete Connected instance. -/
theorem putSetting_no_session_reset_witness :
    (putSetting exEnv stFull5 "server" (.vStr "")).state.client = some 5 :=
  (putSetting_no_session_reset exEnv stFull5 "server" (.vStr "")).1 465
    (by decide) (by decide)

/-- Claim C4: a port value that `int` cannot convert raises "Port must be
a number.", a converted value outside `[0, 65535]` raises "Port must be
between 0 and 65535.", and in both cases the state is completely
unchanged — nothing is persisted, no settings-changed event is emitted,
and the initialization is not re-run. -/
theorem putSetting_port_validation (env : Env) (st : NotifierState)
    (v : Value) :
    (pyToInt v = none →
      putSetting env st "port" v =
        ⟨st, [.log "Port must be a number."],
         .error ⟨"Port must be a number."⟩⟩) ∧
    (∀ n : Int, pyToInt v = some n → (n < 0 ∨ 65535 < n) →
      putSetting env st "port" v =
        ⟨st, [.log "Port must be between 0 and 65535."],
         .error ⟨"Port must be between 0 and 65535."⟩⟩) := by
  constructor
  · intro h
    simp [putSetting, h]
  · intro n h hr
    have hb : (n < 0 || 65535 < n) = true := by
      rcases hr with hr | hr <;> simp [hr]
    simp [putSetting, h, hb]

/-- Claim C4 witness: the scenario string "abc" and the out-of-range port
70000, on a fully configured instance. -/
theorem putSetting_port_validation_witness :
    putSetting exEnv stFull5 "port" (.vStr "abc") =
      ⟨stFull5, [.log "Port must be a number."],
       .error ⟨"Port must be a number."⟩⟩ ∧
    putSetting exEnv stFull5 "port" (.vInt 70000) =
      ⟨stFull5, [.log "Port must be between 0 and 65535."],
       .error ⟨"Port must be between 0 and 65535."⟩⟩ :=
  ⟨(putSetting_port_validation exEnv stFull5 (.vStr "abc")).1 (by decide),
   (putSetting_port_validation exEnv stFull5 (.vInt 70000)).2 70000
     (by decide) (Or.inr (by decide))⟩

/-- Claim C5 counterexample: the integer 1 is neither the string "true"
nor the boolean true, yet storing it under ssl_enabled persists true,
because the Python `==` treats `1` and `True` as equal. -/
theorem putSetting_ssl_int_one_cex :
    (putSetting exEnv stFull5 "ssl_enabled" (.vInt 1)).state.storage
      "ssl_enabled" = some (.vBool true) ∧
    Value.vInt 1 ≠ Value.vStr "true" ∧ Value.vInt 1 ≠ Value.vBool true := by
  decide

/-- Claim C5 (amended): after `putSetting` on the ssl_enabled key the
stored value is always a boolean, and it is true exactly when the input
is the string "true", the boolean true, or a value the Python `==` equates
with `True` — the integer 1; every other input stores false. -/
theorem putSetting_ssl_normalization (env : Env) (st : NotifierState)
    (v : Value) :
    (putSetting env st "ssl_enabled" v).state.storage "ssl_enabled" =
      some (.vBool (eqStrTrue v || eqPyTrue v)) ∧
    ((eqStrTrue v || eqPyTrue v) = true ↔
      (v = .vStr "true" ∨ v = .vBool true ∨ v = .vInt 1)) := by
  constructor
  · have h := storeAndInit_storage env st "ssl_enabled"
      (.vBool (eqStrTrue v || eqPyTrue v))
    simp only [putSetting, show ("ssl_enabled" = "port") = False by simp,
      show ("ssl_enabled" = "ssl_enabled") = True by simp, if_false, if_true]
    rw [h]
    simp [Storage.set]
  · rcases v with s | n | b
    · simp [eqStrTrue, eqPyTrue]
    · simp [eqStrTrue, eqPyTrue]
    · simp [eqStrTrue, eqPyTrue]

/-- Claim C6: whenever `sendNotification` proceeds past the readiness
check (the internal initialization returned normally with a Connected
session), exactly one message reaches the transport; its From and To
headers are the configured addresses, its Subject is the title, its one
text part carries options.body (the empty string when options or its body
is absent), and it carries an image/png part with disposition
"attachment; filename=image.png" holding the resolved and converted media
bytes exactly when the media argument is truthy — no attachment part
otherwise. -/
theorem sendNotification_message (env : Env) (st : NotifierState)
    (title : String) (options : Option NotifierOptions)
    (media : Option MediaInput) (icon : Option MediaInput) (hdl : Nat)
    (hok : (initClient env st).result = .ok ())
    (hcl : (initClient env st).state.client = some hdl) :
    ∃ m : EmailMessage,
      transmits (sendNotification env st title options media icon).effects =
        [m] ∧
      m.fromAddr = st.from_email ∧ m.toAddr = st.to_email ∧
      m.subject = title ∧ m.textBody = bodyOf options ∧
      m.attachment.isSome = mediaTruthy media ∧
      (∀ s : String, media = some (.url s) → mediaTruthy media = true →
        m.attachment = some ⟨"image/png", "attachment; filename=image.png",
          env.convertToBuffer (env.resolveUrl s)⟩) ∧
      (∀ k : Nat, media = some (.obj k) →
        m.attachment = some ⟨"image/png", "attachment; filename=image.png",
          env.convertToBuffer k⟩) := by
  have hs := initClient_storage env st
  have ht := initClient_transmits env st
  have hf : (initClient env st).state.from_email = st.from_email := by
    simp [NotifierState.from_email, hs]
  have hto : (initClient env st).state.to_email = st.to_email := by
    simp [NotifierState.to_email, hs]
  refine ⟨⟨st.from_email, st.to_email, title, bodyOf options,
    attachmentOf env media⟩, ?_, rfl, rfl, rfl, rfl, ?_, ?_, ?_⟩
  · simp only [sendNotification, sendWithInit, hok, hcl, hf, hto]
    rcases hsend : env.send with _ | e | e <;>
      simp only [transmits_append, ht, List.nil_append] <;> rfl
  · by_cases hmt : mediaTruthy media <;> simp [attachmentOf, hmt]
  · intro s hmu hmt
    subst hmu
    simp [attachmentOf, hmt]
  · intro k hmo
    subst hmo
    simp [attachmentOf, mediaTruthy]

/-- Claim C6 witness: the scenario of the spec plus a media URL, on a fully
configured instance whose connect attempt succeeds. -/
theorem sendNotification_message_witness :
    ∃ m : EmailMessage,
      transmits (sendNotification exEnv stFullNone "Alert"
        (some ⟨some "motion detected"⟩) (some (.url "http://x/i.png"))
        none).effects = [m] ∧
      m.fromAddr = stFullNone.from_email ∧ m.toAddr = stFullNone.to_email ∧
      m.subject = "Alert" ∧
      m.textBody = bodyOf (some ⟨some "motion detected"⟩) ∧
      m.attachment.isSome = mediaTruthy (some (.url "http://x/i.png")) ∧
      (∀ s : String, some (.url "http://x/i.png") =
          some (MediaInput.url s) →
        mediaTruthy (some (.url "http://x/i.png")) = true →
        m.attachment = some ⟨"image/png", "attachment; filename=image.png",
          exEnv.convertToBuffer (exEnv.resolveUrl s)⟩) ∧
      (∀ k : Nat, some (.url "http://x/i.png") = some (MediaInput.obj k) →
        m.attachment = some ⟨"image/png", "attachment; filename=image.png",
          exEnv.convertToBuffer k⟩) :=
  sendNotification_message exEnv stFullNone "Alert"
    (some ⟨some "motion detected"⟩) (some (.url "http://x/i.png")) none 9
    (by decide) (by decide)

/-- Claim C7: a transmission-level SMTP protocol error is caught and
logged and the caller observes a normal return. -/
theorem sendNotification_swallows_smtp_error (env : Env) (st : NotifierState)
    (title : String) (options : Option NotifierOptions)
    (media : Option MediaInput) (icon : Option MediaInput) (hdl : Nat)
    (e : String)
    (hok : (initClient env st).result = .ok ())
    (hcl : (initClient env st).state.client = some hdl)
    (hsend : env.send = .smtpError e) :
    (sendNotification env st title options media icon).result = .ok () ∧
    Effect.log ("Error sending email: " ++ e) ∈
      (sendNotification env st title options media icon).effects := by
  simp only [sendNotification, sendWithInit, hok, hcl, hsend]
  exact ⟨trivial, by simp⟩

/-- Claim C7 witness: a configured instance whose send raises an
SMTPException. -/
theorem sendNotification_swallows_smtp_error_witness :
    (sendNotification exEnvSmtpFail stFullNone "Alert" none none none).result
      = .ok () ∧
    Effect.log ("Error sending email: " ++ "boom") ∈
      (sendNotification exEnvSmtpFail stFullNone "Alert" none none
        none).effects :=
  sendNotification_swallows_smtp_error exEnvSmtpFail stFullNone "Alert" none
    none none 9 "boom" (by decide) (by decide) rfl

/-- Claim C10: a non-SMTP exception raised while transmitting propagates
to the caller. -/
theorem sendNotification_propagates_other_error (env : Env)
    (st : NotifierState) (title : String) (options : Option NotifierOptions)
    (media : Option MediaInput) (icon : Option MediaInput) (hdl : Nat)
    (e : PyError)
    (hok : (initClient env st).result = .ok ())
    (hcl : (initClient env st).state.client = some hdl)
    (hsend : env.send = .otherError e) :
    (sendNotification env st title options media icon).result = .error e := by
  simp only [sendNotification, sendWithInit, hok, hcl, hsend]

/-- Claim C10 witness: a configured instance whose send raises a
socket-level error. -/
theorem sendNotification_propagates_other_error_witness :
    (sendNotification exEnvOtherFail stFullNone "Alert" none none
      none).result = .error ⟨"ConnectionResetError"⟩ :=
  sendNotification_propagates_other_error exEnvOtherFail stFullNone "Alert"
    none none none 9 ⟨"ConnectionResetError"⟩ (by decide) (by decide) rfl

/-- Claim C8: when the freshly drawn identifier is not yet registered,
`createDevice` returns that identifier, announces the device to host
discovery exactly once with that identifier, the name from the settings
(default "New SMTP Notifier") and interfaces Notifier and Settings,
registers a newly constructed instance under the identifier, and a
subsequent `getDevice` on the identifier returns that registered instance
without modifying the registry. -/
theorem createDevice_spec (penv : ProviderEnv) (ps : ProviderState)
    (settings : CreateSettings) (hfresh : ps.reg penv.freshId = none) :
    (createDevice penv ps settings).1 = penv.freshId ∧
    (createDevice penv ps settings).2.2 =
      [.deviceDiscovered penv.freshId
        (settings.name.getD "New SMTP Notifier") ["Notifier", "Settings"]
        "Notifier",
       .scheduleInit penv.freshId] ∧
    (createDevice penv ps settings).2.1.reg penv.freshId =
      some ⟨penv.hostStorage penv.freshId, none⟩ ∧
    getDevice penv (createDevice penv ps settings).2.1 penv.freshId =
      (⟨penv.hostStorage penv.freshId, none⟩,
       (createDevice penv ps settings).2.1, []) := by
  have hreg : (createDevice penv ps settings).2.1.reg penv.freshId =
      some ⟨penv.hostStorage penv.freshId, none⟩ := by
    simp [createDevice, getDevice, hfresh]
  refine ⟨rfl, ?_, hreg, ?_⟩
  · simp [createDevice, getDevice, hfresh]
  · unfold getDevice
    rw [hreg]

/-- A provider environment drawing the identifier "id0", with empty host
storage for every device. -/
def penv0 : ProviderEnv := ⟨"id0", fun _ => emptyStorage⟩

/-- The empty provider registry. -/
def ps0 : ProviderState := ⟨fun _ => none⟩

/-- Claim C8 witness: the scenario of the spec, creating a device named
"Garage" in an empty registry. -/
theorem createDevice_spec_witness :
    (createDevice penv0 ps0 ⟨some "Garage"⟩).1 = "id0" ∧
    (createDevice penv0 ps0 ⟨some "Garage"⟩).2.2 =
      [.deviceDiscovered "id0" "Garage" ["Notifier", "Settings"] "Notifier",
       .scheduleInit "id0"] ∧
    (createDevice penv0 ps0 ⟨some "Garage"⟩).2.1.reg "id0" =
      some ⟨emptyStorage, none⟩ ∧
    getDevice penv0 (createDevice penv0 ps0 ⟨some "Garage"⟩).2.1 "id0" =
      (⟨emptyStorage, none⟩, (createDevice penv0 ps0 ⟨some "Garage"⟩).2.1,
       []) :=
  createDevice_spec penv0 ps0 ⟨some "Garage"⟩ (by rfl)

/-- Claim C9: `putSetting` accepts port 0 (it passes the range check),
persists it and returns normally, yet the immediate re-initialization
attempts no connection, and as long as any state stores port 0 the
initialization method returns at the guard with the state untouched — a
stored port of 0 can never produce a Connected session. -/
theorem putSetting_port_zero_dead_end (env : Env) (st : NotifierState) :
    (putSetting env st "port" (.vInt 0)).result = .ok () ∧
    (putSetting env st "port" (.vInt 0)).state.storage "port" =
      some (.vInt 0) ∧
    (putSetting env st "port" (.vInt 0)).effects = [.settingsChanged] ∧
    (∀ (env2 : Env) (st2 : NotifierState),
      st2.storage "port" = some (.vInt 0) →
      initClient env2 st2 = ⟨st2, [], .ok ()⟩) := by
  have hmain : ∀ (env2 : Env) (st2 : NotifierState),
      st2.storage "port" = some (.vInt 0) →
      initClient env2 st2 = ⟨st2, [], .ok ()⟩ := by
    intro env2 st2 h2
    refine initClient_missing env2 st2 0 ?_ ?_
    · simp [NotifierState.port, h2, pyToInt]
    · simp [missingRequired]
  have hps : putSetting env st "port" (.vInt 0) =
      storeAndInit env st "port" (.vInt 0) := rfl
  have hstore : storeAndInit env st "port" (.vInt 0) =
      ⟨⟨st.storage.set "port" (.vInt 0), st.client⟩, [.settingsChanged],
       .ok ()⟩ := by
    unfold storeAndInit
    rw [hmain env ⟨st.storage.set "port" (.vInt 0), st.client⟩
      (by simp [Storage.set])]
  refine ⟨?_, ?_, ?_, hmain⟩
  · rw [hps, hstore]
  · rw [hps, hstore]
    simp [Storage.set]
  · rw [hps, hstore]

/-- Claim C9 witness: the setting call on a fully configured instance, and
the guard exit on the concrete state that stores port 0. -/
theorem putSetting_port_zero_dead_end_witness :
    (putSetting exEnv stFull5 "port" (.vInt 0)).result = .ok () ∧
    initClient exEnv stPort0 = ⟨stPort0, [], .ok ()⟩ :=
  ⟨(putSetting_port_zero_dead_end exEnv stFull5).1,
   (putSetting_port_zero_dead_end exEnv stFull5).2.2.2 exEnv stPort0
     (by decide)⟩

end SMTPN
